import Mathlib

/-!
Verification of the NTK_FS_REG model-definition repository.

The repository defines two neural architectures:
* `src/mlp_mixer/MLP_mixer_mod.py` — an MLP-Mixer classifier built from
  flax modules (`MlpBlock`, `MixerBlock`, `MlpMixer`);
* `src/resnet_mod.py` — a configurable ResNet built from haiku modules
  (`BlockV1`, `BlockGroup`, `ResNet`, `ResNet18`, `check_length`).

The embedding below represents tensors as `Fin`-indexed families of
rationals.  Library layers whose pointwise arithmetic is transcendental
(`nn.gelu`, `nn.LayerNorm`, and the haiku layers) are represented by
abstract function parameters; the repository's own content — which layer
is applied to which axis, in which order, with which configuration — is
translated literally from the source.
-/

namespace NTKFSReg

/-- A rank-2 array of rationals with axes `(batch, features)`. -/
abbrev Tensor2 (b c : ℕ) : Type := Fin b → Fin c → ℚ

/-- A rank-3 array of rationals with axes `(batch, tokens, channels)`. -/
abbrev Tensor3 (b t c : ℕ) : Type := Fin b → Fin t → Fin c → ℚ

/-- A rank-4 array of rationals with axes `(batch, height, width, channels)`. -/
abbrev Tensor4 (n h w c : ℕ) : Type := Fin n → Fin h → Fin w → Fin c → ℚ

/-- The layer `flax.linen.Dense` applied to a single last-axis vector:
`y j = bias j + ∑ i, v i * W i j` (the `y = x·W + b` affine map). -/
def denseVec {d f : ℕ} (W : Fin d → Fin f → ℚ) (bias : Fin f → ℚ)
    (v : Fin d → ℚ) : Fin f → ℚ :=
  fun j => bias j + ∑ i, v i * W i j

/-- Apply a vector-to-vector map along the last axis of a rank-3 array
(this is how `nn.Dense` and `nn.LayerNorm` act on a rank-3 input). -/
def mapLast3 {b t c c' : ℕ} (f : (Fin c → ℚ) → Fin c' → ℚ)
    (x : Tensor3 b t c) : Tensor3 b t c' :=
  fun n i => f (x n i)

/-- Elementwise application of a scalar function to a rank-3 array
(how `nn.gelu` acts). -/
def map3 {b t c : ℕ} (g : ℚ → ℚ) (x : Tensor3 b t c) : Tensor3 b t c :=
  fun n i j => g (x n i j)

/-- The operation `jnp.swapaxes(x, 1, 2)` on a rank-3 array. -/
def swapaxes12 {b t c : ℕ} (x : Tensor3 b t c) : Tensor3 b c t :=
  fun n j i => x n i j

/-- Elementwise addition of two rank-3 arrays (`x + y`). -/
def add3 {b t c : ℕ} (x y : Tensor3 b t c) : Tensor3 b t c :=
  fun n i j => x n i j + y n i j

/-- Translation of `MlpBlock.__call__` from `MLP_mixer_mod.py`:
`y = Dense(mlp_dim)(x); y = gelu(y); return Dense(x.shape[-1])(y)`.
The parameters of the two `Dense` layers are `W0, b0` (features `m`,
the `mlp_dim`) and `W1, b1` (features `d = x.shape[-1]`, so the output
last axis equals the input last axis); `g` is the scalar gelu. -/
def MlpBlock {b t d m : ℕ} (g : ℚ → ℚ)
    (W0 : Fin d → Fin m → ℚ) (b0 : Fin m → ℚ)
    (W1 : Fin m → Fin d → ℚ) (b1 : Fin d → ℚ)
    (x : Tensor3 b t d) : Tensor3 b t d :=
  let y := mapLast3 (denseVec W0 b0) x
  let y := map3 g y
  mapLast3 (denseVec W1 b1) y

/-- The action of one `MlpBlock` on a single vector: the two-layer MLP
`Dense(W1,b1) ∘ gelu ∘ Dense(W0,b0)`. -/
def mlpVec {d m : ℕ} (g : ℚ → ℚ)
    (W0 : Fin d → Fin m → ℚ) (b0 : Fin m → ℚ)
    (W1 : Fin m → Fin d → ℚ) (b1 : Fin d → ℚ)
    (v : Fin d → ℚ) : Fin d → ℚ :=
  denseVec W1 b1 (fun j => g (denseVec W0 b0 v j))

/-- The parameters of one `MixerBlock` instance over tokens axis `t`,
channels axis `c`, `tokens_mlp_dim = tm` and `channels_mlp_dim = cm`:
the two `LayerNorm`s (abstract last-axis vector maps) and the `Dense`
weights of the `token_mixing` and `channel_mixing` `MlpBlock`s. -/
structure MixerParams (t c tm cm : ℕ) where
  ln1 : (Fin c → ℚ) → Fin c → ℚ
  ln2 : (Fin c → ℚ) → Fin c → ℚ
  tW0 : Fin t → Fin tm → ℚ
  tb0 : Fin tm → ℚ
  tW1 : Fin tm → Fin t → ℚ
  tb1 : Fin t → ℚ
  cW0 : Fin c → Fin cm → ℚ
  cb0 : Fin cm → ℚ
  cW1 : Fin cm → Fin c → ℚ
  cb1 : Fin c → ℚ

/-- Translation of `MixerBlock.__call__` from `MLP_mixer_mod.py`, translated line by
line:
`y = LayerNorm()(x); y = swapaxes(y,1,2); y = MlpBlock(tokens_mlp_dim)(y);`
`y = swapaxes(y,1,2); x = x + y; y = LayerNorm()(x);`
`return x + MlpBlock(channels_mlp_dim)(y)`. -/
def MixerBlock {b t c tm cm : ℕ} (g : ℚ → ℚ) (p : MixerParams t c tm cm)
    (x : Tensor3 b t c) : Tensor3 b t c :=
  let y := mapLast3 p.ln1 x
  let y := swapaxes12 y
  let y := MlpBlock g p.tW0 p.tb0 p.tW1 p.tb1 y
  let y := swapaxes12 y
  let x := add3 x y
  let y := mapLast3 p.ln2 x
  add3 x (MlpBlock g p.cW0 p.cb0 p.cW1 p.cb1 y)

/-- Index bound for non-overlapping patch extraction: reading position
`i * p + a` with `i < h` and `a < p` stays inside an axis of size `h * p`. -/
theorem patch_index_lt {h p : ℕ} (i : Fin h) (a : Fin p) :
    i.1 * p + a.1 < h * p := by
  calc i.1 * p + a.1 < i.1 * p + p := by omega
    _ = (i.1 + 1) * p := by ring
    _ ≤ h * p := Nat.mul_le_mul_right p i.2

/-- The stem: `nn.Conv(hidden_dim, patches, strides=patches)` for a patch
size `(ph, pw)`.  Because the kernel shape equals the strides, the output
at spatial position `(i, j)` reads exactly the input patch
`[i*ph, (i+1)*ph) × [j*pw, (j+1)*pw)` and contracts it (and the input
channels) against the kernel `K`, adding the bias.  The input spatial
extent is `(h*ph, w*pw)`, covered exactly by the `h × w` patch grid. -/
def stemConv {n h w ph pw C hd : ℕ}
    (K : Fin ph → Fin pw → Fin C → Fin hd → ℚ) (bias : Fin hd → ℚ)
    (inp : Tensor4 n (h * ph) (w * pw) C) : Tensor4 n h w hd :=
  fun nn i j d => bias d +
    ∑ a : Fin ph, ∑ b' : Fin pw, ∑ c : Fin C,
      inp nn ⟨i.1 * ph + a.1, patch_index_lt i a⟩
             ⟨j.1 * pw + b'.1, patch_index_lt j b'⟩ c * K a b' c d

/-- The width of the token grid is positive whenever a token index exists. -/
theorem width_pos {h w : ℕ} (k : Fin (h * w)) : 0 < w := by
  rcases Nat.eq_zero_or_pos w with hw | hw
  · subst hw; simp at k; exact absurd k.2 (by simp)
  · exact hw

/-- Row index of token `k` in an `h × w` grid. -/
theorem token_div_lt {h w : ℕ} (k : Fin (h * w)) : k.1 / w < h :=
  (Nat.div_lt_iff_lt_mul (width_pos k)).2 k.2

/-- Column index of token `k` in an `h × w` grid. -/
theorem token_mod_lt {h w : ℕ} (k : Fin (h * w)) : k.1 % w < w :=
  Nat.mod_lt _ (width_pos k)

/-- The operation `einops.rearrange(x, 'n h w c -> n (h w) c')`: the two spatial axes
are flattened into a single token axis in row-major order. -/
def rearrangeTokens {n h w c : ℕ} (x : Tensor4 n h w c) :
    Tensor3 n (h * w) c :=
  fun nn k cc => x nn ⟨k.1 / w, token_div_lt k⟩ ⟨k.1 % w, token_mod_lt k⟩ cc

/-- The loop `for _ in range(num_blocks): x = MixerBlock(...)(x)` from
`MlpMixer.__call__`; in flax each iteration instantiates its own
parameters, given here by the family `ps`. -/
def mixerBlocksLoop {b t c tm cm : ℕ} (g : ℚ → ℚ)
    (ps : ℕ → MixerParams t c tm cm) (num_blocks : ℕ)
    (x : Tensor3 b t c) : Tensor3 b t c :=
  (List.range num_blocks).foldl (fun acc i => MixerBlock g (ps i) acc) x

/-- The composition of `num_blocks` successive `MixerBlock`s as a right-nested composition:
block `k` is applied after blocks `0, …, k-1`. -/
def mixerBlocksSeq {b t c tm cm : ℕ} (g : ℚ → ℚ)
    (ps : ℕ → MixerParams t c tm cm) :
    ℕ → Tensor3 b t c → Tensor3 b t c
  | 0, x => x
  | k + 1, x => MixerBlock g (ps k) (mixerBlocksSeq g ps k x)

/-- Mean over the token axis: `jnp.mean(x, axis=1)`. -/
def meanAxis1 {b t c : ℕ} (x : Tensor3 b t c) : Tensor2 b c :=
  fun nn cc => (∑ i : Fin t, x nn i cc) / t

/-- The layer `nn.Dense` applied to a rank-2 array (the classifier head). -/
def dense2 {b d f : ℕ} (W : Fin d → Fin f → ℚ) (bias : Fin f → ℚ)
    (x : Tensor2 b d) : Tensor2 b f :=
  fun nn => denseVec W bias (x nn)

/-- Translation of `MlpMixer.__call__` from `MLP_mixer_mod.py`, translated line by line:
`del train`, the stem convolution, the `rearrange`, the block loop, the
`pre_head_layer_norm` (abstract last-axis map `lnPre`), the token mean,
and the `head` dense layer of `num_classes` features. -/
def MlpMixer {n h w ph pw C hd tm cm num_classes : ℕ} (g : ℚ → ℚ)
    (stemK : Fin ph → Fin pw → Fin C → Fin hd → ℚ) (stemB : Fin hd → ℚ)
    (ps : ℕ → MixerParams (h * w) hd tm cm)
    (lnPre : (Fin hd → ℚ) → Fin hd → ℚ)
    (headW : Fin hd → Fin num_classes → ℚ) (headB : Fin num_classes → ℚ)
    (num_blocks : ℕ)
    (inputs : Tensor4 n (h * ph) (w * pw) C) (train : Bool) :
    Tensor2 n num_classes :=
  let _ := train
  let x := stemConv stemK stemB inputs
  let x := rearrangeTokens x
  let x := mixerBlocksLoop g ps num_blocks x
  let x := mapLast3 lnPre x
  let x := meanAxis1 x
  dense2 headW headB x

/-! ### Shape semantics of the mixer modules

`flax` infers every parameter shape from the input shape; the following
shape calculus records how each operation used by `MlpBlock` and
`MixerBlock` transforms the shape of its argument, with `none` for a
shape the library would reject.  The residual additions are given the
exact-match rule, so a defined result certifies that each `+` received
two arrays of identical shape. -/

/-- The shape of an array: the list of its axis extents. -/
abbrev Shape := List ℕ

/-- Shape action of `nn.Dense(features)`: the last axis is replaced by
`features`; a rank-0 input is rejected. -/
def denseShape (features : ℕ) : Shape → Option Shape
  | [] => none
  | s => some (s.dropLast ++ [features])

/-- Shape action of `jnp.swapaxes(·, 1, 2)`: axes 1 and 2 exchanged;
rank below 3 is rejected. -/
def swapaxes12Shape : Shape → Option Shape
  | a :: b :: c :: rest => some (a :: c :: b :: rest)
  | _ => none

/-- Shape action of an elementwise addition, with the exact-match rule. -/
def addShape (s₁ s₂ : Shape) : Option Shape :=
  if s₁ = s₂ then some s₁ else none

/-- Shape action of `MlpBlock.__call__`: `Dense(mlp_dim)`, then the
shape-preserving `gelu`, then `Dense(x.shape[-1])` where `x.shape[-1]`
is the last axis of the *original* input. -/
def MlpBlockShape (mlp_dim : ℕ) (s : Shape) : Option Shape := do
  let y ← denseShape mlp_dim s
  match s.getLast? with
  | none => none
  | some d => denseShape d y

/-- Shape action of `MixerBlock.__call__`: `LayerNorm` preserves the
shape, then swap–`MlpBlock`–swap, the first residual `+`, `LayerNorm`,
the channel `MlpBlock` and the second residual `+`. -/
def MixerBlockShape (tokens_mlp_dim channels_mlp_dim : ℕ) (s : Shape) :
    Option Shape := do
  let y := s
  let y ← swapaxes12Shape y
  let y ← MlpBlockShape tokens_mlp_dim y
  let y ← swapaxes12Shape y
  let u ← addShape s y
  let z := u
  let z ← MlpBlockShape channels_mlp_dim z
  addShape u z

/-- The layer `nn.Dense` on a nonempty shape replaces the last axis. -/
theorem denseShape_cons (features : ℕ) (a : ℕ) (s : List ℕ) :
    denseShape features (a :: s) = some ((a :: s).dropLast ++ [features]) := by
  cases s <;> rfl

/-- The module `MlpBlock` maps any array of positive rank back to its own shape. -/
theorem mlpBlockShape_preserves (mlp_dim : ℕ) (s : Shape) (hs : s ≠ []) :
    MlpBlockShape mlp_dim s = some s := by
  obtain ⟨a, s', rfl⟩ := List.exists_cons_of_ne_nil hs
  have hlast : (a :: s').getLast? = some ((a :: s').getLast (by simp)) :=
    List.getLast?_eq_getLast _ _
  simp only [MlpBlockShape, denseShape_cons, Option.bind_eq_bind,
    Option.some_bind, hlast]
  have h1 : (a :: s').dropLast ++ [mlp_dim] ≠ [] := by simp
  obtain ⟨b, u, hbu⟩ := List.exists_cons_of_ne_nil h1
  rw [hbu, denseShape_cons, ← hbu]
  simp [List.dropLast_concat, List.dropLast_append_getLast]

/-! ### The ResNet of `src/resnet_mod.py`

The haiku modules are built in two phases: `__init__` assembles a tree
of sub-module configurations, and `__call__` threads an array through
them.  The configuration records below keep exactly the fields the
constructors set; the runtime behaviour of the library layers
(`hk.Conv2D`, `hk.BatchNorm`, `hk.max_pool`, `hk.Linear`, `jax.nn.relu`,
`jnp.mean`) is abstracted by function parameters over an arbitrary
carrier type, while the repository's own sequencing is translated
literally. -/

/-- The configuration of one `hk.Conv2D` as built by `resnet_mod.py`. -/
structure Conv2DCfg where
  output_channels : ℕ
  kernel_shape : ℕ
  stride : ℕ
  with_bias : Bool
  padding : String
  name : String
deriving DecidableEq, Inhabited, Repr

/-- The configuration of one `BlockV1` as built by `BlockV1.__init__`:
the two flags, the optional projection convolution and batchnorm of the
shortcut, and the `layers` tuple of `(conv, batchnorm-or-None)` pairs
(each batchnorm recorded by its name). -/
structure BlockV1Cfg where
  use_projection : Bool
  use_bn : Bool
  proj_conv : Option Conv2DCfg
  proj_batchnorm : Option String
  layers : List (Conv2DCfg × Option String)
deriving DecidableEq, Inhabited, Repr

/-- Translation of `BlockV1.__init__`: `channel_div = 4 if bottleneck else 1`; `conv_0`
has kernel `1 if bottleneck else 3` and stride `1 if bottleneck else
stride`; `conv_1` has kernel `3` and stride `stride if bottleneck else
1`; the projection is a 1×1 convolution of `channels` output channels at
the block stride, built only when `use_projection`; each batchnorm is
built only when `use_bn`.  (The `bn_config` dictionary is passed through
to the library `BatchNorm` and carries no repository logic.) -/
def BlockV1_init (channels stride : ℕ) (use_projection : Bool)
    (bottleneck : Bool) (use_bn : Bool) : BlockV1Cfg :=
  let channel_div := if bottleneck then 4 else 1
  let conv_0 : Conv2DCfg :=
    ⟨channels / channel_div, if bottleneck then 1 else 3,
     if bottleneck then 1 else stride, false, "SAME", "conv_0"⟩
  let conv_1 : Conv2DCfg :=
    ⟨channels / channel_div, 3,
     if bottleneck then stride else 1, false, "SAME", "conv_1"⟩
  { use_projection := use_projection
    use_bn := use_bn
    proj_conv :=
      if use_projection then
        some ⟨channels, 1, stride, false, "SAME", "shortcut_conv"⟩
      else none
    proj_batchnorm :=
      if use_projection && use_bn then some "shortcut_batchnorm" else none
    layers :=
      if use_bn then
        [(conv_0, some "batchnorm_0"), (conv_1, some "batchnorm_1")]
      else
        [(conv_0, none), (conv_1, none)] }

/-- Translation of `BlockV1.__call__`, rendered line by line over an abstract carrier
`T`: the projected (and, when `use_bn`, batch-normalised) shortcut, the
`enumerate(self.layers)` loop — convolution, batchnorm guarded by
`self.use_bn`, and `relu` guarded by `i < len(self.layers) - 1` — and
the final `relu(out + shortcut)`. -/
def BlockV1_call {T : Type} (convRun : Conv2DCfg → T → T)
    (bnRun : String → Bool → Bool → T → T) (relu : T → T)
    (add : T → T → T) (cfg : BlockV1Cfg) (inputs : T)
    (is_training test_local_stats : Bool) : T :=
  let shortcut :=
    if cfg.use_projection then
      let s := convRun (cfg.proj_conv.getD default) inputs
      if cfg.use_bn then
        bnRun (cfg.proj_batchnorm.getD "") is_training test_local_stats s
      else s
    else inputs
  let out := cfg.layers.enum.foldl
    (fun out p =>
      let out := convRun p.2.1 out
      let out :=
        if cfg.use_bn then
          bnRun (p.2.2.getD "") is_training test_local_stats out
        else out
      if p.1 < cfg.layers.length - 1 then relu out else out)
    inputs
  relu (add out shortcut)

/-- The configuration of one `BlockGroup`: the class chosen by the
`block_cls = BlockV1` line and the list of constructed blocks. -/
structure BlockGroupCfg where
  use_bn : Bool
  blockClass : String
  blocks : List BlockV1Cfg
deriving DecidableEq, Inhabited, Repr

/-- Translation of `BlockGroup.__init__`: `block_cls = BlockV1` unconditionally, then
`num_blocks` blocks with stride `(1 if i else stride)`. -/
def BlockGroup_init (channels num_blocks stride : ℕ)
    (resnet_v2 : Bool) (bottleneck : Bool) (use_projection : Bool)
    (use_bn : Bool) : BlockGroupCfg :=
  let _ := resnet_v2
  { use_bn := use_bn
    blockClass := "BlockV1"
    blocks := (List.range num_blocks).map fun i =>
      BlockV1_init channels (if i = 0 then stride else 1)
        use_projection bottleneck use_bn }

/-- Translation of `BlockGroup.__call__`: thread the input through the blocks in order. -/
def BlockGroup_call {T : Type} (convRun : Conv2DCfg → T → T)
    (bnRun : String → Bool → Bool → T → T) (relu : T → T)
    (add : T → T → T) (g : BlockGroupCfg) (inputs : T)
    (is_training test_local_stats : Bool) : T :=
  g.blocks.foldl
    (fun out bcfg =>
      BlockV1_call convRun bnRun relu add bcfg out is_training
        test_local_stats)
    inputs

/-- The configuration of the `hk.Linear` logits layer. -/
structure LinearCfg where
  output_size : ℕ
  name : String
deriving DecidableEq, Inhabited, Repr

/-- The configuration of one `ResNet` as built by `ResNet.__init__`. -/
structure ResNetCfg where
  resnet_v1 : Bool
  resnet_v2 : Bool
  use_bn : Bool
  initial_conv : Conv2DCfg
  initial_batchnorm : Option String
  block_groups : List BlockGroupCfg
  logits : LinearCfg
deriving DecidableEq, Inhabited, Repr

/-- Translation of `check_length` from `resnet_mod.py`: raise `ValueError` when the
sequence does not have the stated length (the message hardcodes "4" as
in the source). -/
def check_length {α : Type} (length : ℕ) (value : List α)
    (name : String) : Except String Unit :=
  if value.length ≠ length then
    Except.error
      ("`" ++ name ++ "` must be of length 4 not " ++ toString value.length)
  else Except.ok ()

/-- Translation of `ResNet.__init__`, with the configuration dictionaries at their
default values (the claims under verification do not touch the override
paths): the two `check_length` guards, the initial convolution (kernel
7 stride 2 for `resnet_v1`, else kernel 3 stride 1, 64 output channels),
the initial batchnorm built only when `not resnet_v2` and `use_bn`, the
four block groups at strides `(1, 2, 2, 2)`, and the `logits` linear
layer of `num_classes` outputs. -/
def ResNet_init (blocks_per_group : List ℕ) (num_classes : ℕ)
    (use_bn : Bool) (resnet_v1 : Bool) (resnet_v2 : Bool)
    (bottleneck : Bool) (channels_per_group : List ℕ)
    (use_projection : List Bool) : Except String ResNetCfg := do
  check_length 4 blocks_per_group "blocks_per_group"
  check_length 4 channels_per_group "channels_per_group"
  let initial_conv : Conv2DCfg :=
    if resnet_v1 then ⟨64, 7, 2, false, "SAME", "initial_conv"⟩
    else ⟨64, 3, 1, false, "SAME", "initial_conv"⟩
  let initial_batchnorm : Option String :=
    if !resnet_v2 && use_bn then some "initial_batchnorm" else none
  let strides : List ℕ := [1, 2, 2, 2]
  let block_groups := (List.range 4).map fun i =>
    BlockGroup_init (channels_per_group.getD i 0)
      (blocks_per_group.getD i 0) (strides.getD i 0) resnet_v2 bottleneck
      (use_projection.getD i false) use_bn
  Except.ok
    { resnet_v1 := resnet_v1
      resnet_v2 := resnet_v2
      use_bn := use_bn
      initial_conv := initial_conv
      initial_batchnorm := initial_batchnorm
      block_groups := block_groups
      logits := ⟨num_classes, "logits"⟩ }

/-- Translation of `ResNet.__call__`, rendered line by line: the initial convolution,
the `hk.max_pool(window_shape=(1,3,3,1), strides=(1,2,2,1), "SAME")`
applied exactly when `resnet_v1`, the block groups in order, the
`jnp.mean(out, axis=(1,2))`, and the logits layer.  (The constructed
`initial_batchnorm` is never invoked here, exactly as in the source.) -/
def ResNet_call {T : Type} (convRun : Conv2DCfg → T → T)
    (bnRun : String → Bool → Bool → T → T) (relu : T → T)
    (add : T → T → T) (maxPoolRun : List ℕ → List ℕ → String → T → T)
    (meanRun : List ℕ → T → T) (linearRun : LinearCfg → T → T)
    (cfg : ResNetCfg) (inputs : T) (is_training : Bool)
    (test_local_stats : Bool) : T :=
  let out := inputs
  let out := convRun cfg.initial_conv out
  let out :=
    if cfg.resnet_v1 then maxPoolRun [1, 3, 3, 1] [1, 2, 2, 1] "SAME" out
    else out
  let out := cfg.block_groups.foldl
    (fun o g =>
      BlockGroup_call convRun bnRun relu add g o is_training
        test_local_stats)
    out
  let out := meanRun [1, 2] out
  linearRun cfg.logits out

/-- Translation of `ResNet18.__init__`: delegates to `ResNet.__init__` with the fixed
depth-18 table — blocks `(2,2,2,2)`, no bottleneck, channels
`(64,128,256,512)`, and projection flags `(False,True,True,True)` for
`resnet_v1`, `(True,True,True,True)` otherwise. -/
def ResNet18_init (num_classes : ℕ) (use_bn : Bool) (resnet_v1 : Bool)
    (resnet_v2 : Bool) : Except String ResNetCfg :=
  ResNet_init [2, 2, 2, 2] num_classes use_bn resnet_v1 resnet_v2 false
    [64, 128, 256, 512]
    (if resnet_v1 then [false, true, true, true]
     else [true, true, true, true])

/-! ### Spec-side formulations and loop lemmas -/

/-- The layer stack as the spec describes it: each element is applied in
order, with `relu` inserted after every element except the last. -/
def stackAllButLastRelu {α T : Type} (step : α → T → T) (relu : T → T) :
    List α → T → T
  | [], x => x
  | [l], x => step l x
  | l :: l' :: ls, x => stackAllButLastRelu step relu (l' :: ls) (relu (step l x))

/-- The `enumerate`-and-compare-with-`len - 1` loop of `BlockV1.__call__`
computes exactly "apply each element, `relu` after all but the last". -/
theorem enumFrom_foldl_relu {α T : Type} (step : α → T → T) (relu : T → T)
    (N : ℕ) :
    ∀ (ls : List α) (k : ℕ), N = k + ls.length → ∀ x : T,
      (List.enumFrom k ls).foldl
        (fun out p =>
          let o := step p.2 out
          if p.1 < N - 1 then relu o else o) x
      = stackAllButLastRelu step relu ls x := by
  intro ls
  induction ls with
  | nil => intro k hN x; rfl
  | cons l ls ih =>
    intro k hN x
    cases ls with
    | nil =>
      simp only [List.enumFrom, List.foldl, stackAllButLastRelu]
      have : ¬ (k < N - 1) := by simp at hN; omega
      simp [this]
    | cons l' ls' =>
      have hk : k < N - 1 := by simp at hN; omega
      simp only [List.enumFrom, List.foldl, stackAllButLastRelu]
      rw [← ih (k + 1) (by simp at hN ⊢; omega)]
      simp [hk]

/-- The block loop of `MlpMixer.__call__` applies the `num_blocks`
blocks as the successive composition `mixerBlocksSeq`. -/
theorem mixerBlocksLoop_eq_seq {b t c tm cm : ℕ} (g : ℚ → ℚ)
    (ps : ℕ → MixerParams t c tm cm) (num_blocks : ℕ)
    (x : Tensor3 b t c) :
    mixerBlocksLoop g ps num_blocks x = mixerBlocksSeq g ps num_blocks x := by
  induction num_blocks with
  | zero => rfl
  | succ k ih =>
    unfold mixerBlocksLoop at ih ⊢
    rw [List.range_succ, List.foldl_append, ih]
    rfl

/-- Normal form of `ResNet.__init__`: the two length checks guard the
construction, and a passing construction is the explicit configuration
record. -/
theorem ResNet_init_eq (bpg : List ℕ) (nc : ℕ) (bn v1 v2 bt : Bool)
    (cpg : List ℕ) (up : List Bool) :
    ResNet_init bpg nc bn v1 v2 bt cpg up =
      if bpg.length ≠ 4 then
        Except.error
          ("`blocks_per_group` must be of length 4 not " ++
            toString bpg.length)
      else if cpg.length ≠ 4 then
        Except.error
          ("`channels_per_group` must be of length 4 not " ++
            toString cpg.length)
      else
        Except.ok
          { resnet_v1 := v1
            resnet_v2 := v2
            use_bn := bn
            initial_conv :=
              if v1 then ⟨64, 7, 2, false, "SAME", "initial_conv"⟩
              else ⟨64, 3, 1, false, "SAME", "initial_conv"⟩
            initial_batchnorm :=
              if !v2 && bn then some "initial_batchnorm" else none
            block_groups := (List.range 4).map fun i =>
              BlockGroup_init (cpg.getD i 0) (bpg.getD i 0)
                ([1, 2, 2, 2].getD i 0) v2 bt (up.getD i false) bn
            logits := ⟨nc, "logits"⟩ } := by
  unfold ResNet_init check_length
  by_cases h₁ : bpg.length = 4 <;> by_cases h₂ : cpg.length = 4 <;>
    simp [h₁, h₂] <;> rfl

/-! ### Claim theorems -/

/-- Claim C1: `MixerBlock.__call__` first computes
`u = x + swapaxes(MlpBlock_tokens(swapaxes(LayerNorm(x), 1, 2)), 1, 2)`
and then returns `u + MlpBlock_channels(LayerNorm(u))`; the token-mixing
`MlpBlock` acts along the token axis (every `(batch, channel)` fibre of
the token path is the two-layer MLP of the corresponding input fibre),
the channel-mixing `MlpBlock` acts along the channel (last) axis, and
each path is a residual addition onto its own input. -/
theorem mixerBlock_residual_mixing_paths {b t c tm cm : ℕ} (g : ℚ → ℚ)
    (p : MixerParams t c tm cm) (x : Tensor3 b t c) :
    (MixerBlock g p x =
      (let u := add3 x (swapaxes12 (MlpBlock g p.tW0 p.tb0 p.tW1 p.tb1
        (swapaxes12 (mapLast3 p.ln1 x))))
       add3 u (MlpBlock g p.cW0 p.cb0 p.cW1 p.cb1 (mapLast3 p.ln2 u))))
    ∧ (∀ (y : Tensor3 b t c) (n : Fin b) (j : Fin c),
        (fun i => swapaxes12
            (MlpBlock g p.tW0 p.tb0 p.tW1 p.tb1 (swapaxes12 y)) n i j)
          = mlpVec g p.tW0 p.tb0 p.tW1 p.tb1 (fun i => y n i j))
    ∧ (∀ (y : Tensor3 b t c) (n : Fin b) (i : Fin t),
        MlpBlock g p.cW0 p.cb0 p.cW1 p.cb1 y n i
          = mlpVec g p.cW0 p.cb0 p.cW1 p.cb1 (y n i)) := by
  refine ⟨rfl, ?_, ?_⟩ <;> intros <;> rfl

/-- Claim C2: `MlpMixer.__call__` is exactly the composition of the stem
patch convolution, the `'n h w c -> n (h w) c'` rearrangement,
`num_blocks` successive `MixerBlock`s, a `LayerNorm`, the mean over the
token axis, and the final `Dense` head of `num_classes` outputs. -/
theorem mlpMixer_pipeline_order {n h w ph pw C hd tm cm num_classes : ℕ}
    (g : ℚ → ℚ) (stemK : Fin ph → Fin pw → Fin C → Fin hd → ℚ)
    (stemB : Fin hd → ℚ) (ps : ℕ → MixerParams (h * w) hd tm cm)
    (lnPre : (Fin hd → ℚ) → Fin hd → ℚ)
    (headW : Fin hd → Fin num_classes → ℚ) (headB : Fin num_classes → ℚ)
    (num_blocks : ℕ) (inputs : Tensor4 n (h * ph) (w * pw) C)
    (train : Bool) :
    MlpMixer g stemK stemB ps lnPre headW headB num_blocks inputs train =
      dense2 headW headB (meanAxis1 (mapLast3 lnPre
        (mixerBlocksSeq g ps num_blocks
          (rearrangeTokens (stemConv stemK stemB inputs))))) := by
  simp only [MlpMixer]
  rw [mixerBlocksLoop_eq_seq]

/-- Claim C9: `MlpBlock.__call__` returns an array of the same shape as
its input (its final `Dense` has `x.shape[-1]` features), and
`MixerBlock.__call__` preserves the shape of its rank-3 input; the
defined (`some`) result of `MixerBlockShape` certifies that both
residual additions combine arrays of identical shape, since `addShape`
is defined with the exact-match rule. -/
theorem mixer_shape_preservation (mlp_dim tm cm : ℕ) :
    (∀ s : Shape, s ≠ [] → MlpBlockShape mlp_dim s = some s)
    ∧ (∀ (a b c : ℕ) (rest : List ℕ),
        MixerBlockShape tm cm (a :: b :: c :: rest)
          = some (a :: b :: c :: rest)) := by
  refine ⟨mlpBlockShape_preserves mlp_dim, ?_⟩
  intro a b c rest
  have h1 := mlpBlockShape_preserves tm (a :: c :: b :: rest) (by simp)
  have h2 := mlpBlockShape_preserves cm (a :: b :: c :: rest) (by simp)
  simp [MixerBlockShape, swapaxes12Shape, addShape, h1, h2]

/-- Witness for C9 at a concrete shape: rank-3 shape `[2, 3, 4]` is
preserved by both shape actions. -/
theorem mixer_shape_preservation_witness :
    MlpBlockShape 5 [2, 3, 4] = some [2, 3, 4]
    ∧ MixerBlockShape 5 6 [2, 3, 4] = some [2, 3, 4] :=
  ⟨(mixer_shape_preservation 5 5 6).1 [2, 3, 4] (by decide),
   (mixer_shape_preservation 5 5 6).2 2 3 4 []⟩

/-- Claim C10: the keyword-only `train` argument of
`MlpMixer.__call__` is deleted on entry (`del train`) and has no
influence: the outputs for `train = True` and `train = False` (indeed
any two values) coincide for every input and parameter assignment. -/
theorem mlpMixer_train_flag_irrelevant
    {n h w ph pw C hd tm cm num_classes : ℕ} (g : ℚ → ℚ)
    (stemK : Fin ph → Fin pw → Fin C → Fin hd → ℚ) (stemB : Fin hd → ℚ)
    (ps : ℕ → MixerParams (h * w) hd tm cm)
    (lnPre : (Fin hd → ℚ) → Fin hd → ℚ)
    (headW : Fin hd → Fin num_classes → ℚ) (headB : Fin num_classes → ℚ)
    (num_blocks : ℕ) (inputs : Tensor4 n (h * ph) (w * pw) C)
    (train₁ train₂ : Bool) :
    MlpMixer g stemK stemB ps lnPre headW headB num_blocks inputs train₁ =
      MlpMixer g stemK stemB ps lnPre headW headB num_blocks inputs train₂ :=
  rfl

/-- Claim C3: `BlockV1.__call__` returns `relu(out + shortcut)` where
`out` applies each `(conv, batchnorm)` pair of `self.layers` in order
with `relu` after every pair except the last, batchnorm appearing
exactly when `use_bn`; the shortcut is the raw input when
`use_projection` is false and the 1×1 projection convolution (followed
by batchnorm exactly when `use_bn`) when it is true; with `use_bn =
false` the output is independent of the batchnorm interpretation (no
batchnorm operation occurs), and `ResNet.__init__` with `use_bn = false`
constructs no initial batchnorm. -/
theorem blockV1_call_structure {T : Type} (convRun : Conv2DCfg → T → T)
    (bnRun bnRun₂ : String → Bool → Bool → T → T) (relu : T → T)
    (add : T → T → T) (channels stride : ℕ)
    (use_projection bottleneck use_bn : Bool) (inputs : T)
    (tr st : Bool) (bpg cpg : List ℕ) (nc : ℕ) (v1 v2 bt : Bool)
    (up : List Bool) :
    (BlockV1_call convRun bnRun relu add
        (BlockV1_init channels stride use_projection bottleneck use_bn)
        inputs tr st
      = relu (add
          (stackAllButLastRelu
            (fun l out =>
              if use_bn then bnRun (l.2.getD "") tr st (convRun l.1 out)
              else convRun l.1 out)
            relu
            (BlockV1_init channels stride use_projection bottleneck
              use_bn).layers
            inputs)
          (if use_projection then
            (if use_bn then
              bnRun "shortcut_batchnorm" tr st
                (convRun ⟨channels, 1, stride, false, "SAME",
                  "shortcut_conv"⟩ inputs)
            else
              convRun ⟨channels, 1, stride, false, "SAME",
                "shortcut_conv"⟩ inputs)
          else inputs)))
    ∧ (BlockV1_call convRun bnRun relu add
        (BlockV1_init channels stride use_projection bottleneck false)
        inputs tr st
      = BlockV1_call convRun bnRun₂ relu add
          (BlockV1_init channels stride use_projection bottleneck false)
          inputs tr st)
    ∧ ((ResNet_init bpg nc false v1 v2 bt cpg up).map
          (fun c => c.initial_batchnorm)
        = (ResNet_init bpg nc false v1 v2 bt cpg up).map
            (fun _ => none)) := by
  refine ⟨?_, ?_, ?_⟩
  · cases use_bn <;> cases use_projection <;>
      simp [BlockV1_call, BlockV1_init, stackAllButLastRelu, List.enum,
        List.enumFrom]
  · cases use_projection <;>
      simp [BlockV1_call, BlockV1_init, List.enum, List.enumFrom]
  · rw [ResNet_init_eq]
    by_cases h₁ : bpg.length = 4 <;> by_cases h₂ : cpg.length = 4 <;>
      simp [h₁, h₂, Except.map]

/-- Claim C4: `ResNet.__call__` applies, in order, the initial
convolution; exactly when `resnet_v1`, a `hk.max_pool` with window
`(1,3,3,1)`, strides `(1,2,2,1)` and `SAME` padding; the four block
groups in index order; the mean over the spatial axes `(1, 2)`; and the
logits linear layer, which the constructor sets to `num_classes`
outputs. -/
theorem resnet_call_pipeline_order {T : Type} (convRun : Conv2DCfg → T → T)
    (bnRun : String → Bool → Bool → T → T) (relu : T → T)
    (add : T → T → T) (maxPoolRun : List ℕ → List ℕ → String → T → T)
    (meanRun : List ℕ → T → T) (linearRun : LinearCfg → T → T)
    (v1 v2 bn : Bool) (ic : Conv2DCfg) (ibn : Option String)
    (g0 g1 g2 g3 : BlockGroupCfg) (lg : LinearCfg) (inputs : T)
    (tr st : Bool) (b0 b1 b2 b3 c0 c1 c2 c3 nc : ℕ)
    (p0 p1 p2 p3 bt : Bool) :
    (ResNet_call convRun bnRun relu add maxPoolRun meanRun linearRun
        ⟨v1, v2, bn, ic, ibn, [g0, g1, g2, g3], lg⟩ inputs tr st
      = linearRun lg (meanRun [1, 2]
          (BlockGroup_call convRun bnRun relu add g3
            (BlockGroup_call convRun bnRun relu add g2
              (BlockGroup_call convRun bnRun relu add g1
                (BlockGroup_call convRun bnRun relu add g0
                  (if v1 then
                    maxPoolRun [1, 3, 3, 1] [1, 2, 2, 1] "SAME"
                      (convRun ic inputs)
                  else convRun ic inputs)
                  tr st) tr st) tr st) tr st)))
    ∧ ((ResNet_init [b0, b1, b2, b3] nc bn v1 v2 bt [c0, c1, c2, c3]
          [p0, p1, p2, p3]).map ResNetCfg.logits
        = Except.ok ⟨nc, "logits"⟩) :=
  ⟨rfl, rfl⟩

/-- Claim C5: the `block_cls = BlockV1` line of `BlockGroup.__init__`
ignores `resnet_v2`, so every residual block built by `BlockGroup` —
and hence by `ResNet` and `ResNet18`, for both values of the flag — is
a v1-style block. -/
theorem blockGroup_always_blockV1 (c n s : ℕ) (v2 v2' bt p bn : Bool)
    (b0 b1 b2 b3 c0 c1 c2 c3 nc : ℕ) (p0 p1 p2 p3 : Bool)
    (bn' v1 : Bool) (nc18 : ℕ) (bn18 v118 v218 : Bool) :
    ((BlockGroup_init c n s v2 bt p bn).blockClass = "BlockV1")
    ∧ (BlockGroup_init c n s v2 bt p bn
        = BlockGroup_init c n s v2' bt p bn)
    ∧ ((ResNet_init [b0, b1, b2, b3] nc bn' v1 v2 bt [c0, c1, c2, c3]
          [p0, p1, p2, p3]).map
            (fun cfg => cfg.block_groups.map BlockGroupCfg.blockClass)
        = Except.ok ["BlockV1", "BlockV1", "BlockV1", "BlockV1"])
    ∧ ((ResNet18_init nc18 bn18 v118 v218).map
          (fun cfg => cfg.block_groups.map BlockGroupCfg.blockClass)
        = Except.ok ["BlockV1", "BlockV1", "BlockV1", "BlockV1"]) :=
  ⟨rfl, rfl, rfl, rfl⟩

/-- Claim C6: in `BlockV1.__init__`, with `bottleneck` the two stacked
convolutions have `channels // 4` output channels, kernels 1 and 3, and
the stride in the second (the first at stride 1); without `bottleneck`
both have `channels` output channels, kernel 3, and the stride in the
first (the second at stride 1). -/
theorem blockV1_conv_configuration (channels stride : ℕ) (p bn : Bool) :
    ((BlockV1_init channels stride p true bn).layers.map Prod.fst
      = [⟨channels / 4, 1, 1, false, "SAME", "conv_0"⟩,
         ⟨channels / 4, 3, stride, false, "SAME", "conv_1"⟩])
    ∧ ((BlockV1_init channels stride p false bn).layers.map Prod.fst
      = [⟨channels, 3, stride, false, "SAME", "conv_0"⟩,
         ⟨channels, 3, 1, false, "SAME", "conv_1"⟩]) := by
  cases bn <;> exact ⟨by simp [BlockV1_init], by simp [BlockV1_init]⟩

/-- Claim C7: with length-4 tables, `ResNet.__init__` builds exactly
four block groups, group `i` getting `channels_per_group[i]`,
`blocks_per_group[i]` and stride `(1, 2, 2, 2)[i]`; and inside
`BlockGroup.__init__` only block 0 receives the group stride, every
later block receiving stride 1. -/
theorem resnet_group_tables (b0 b1 b2 b3 c0 c1 c2 c3 nc : ℕ)
    (bn v1 v2 bt : Bool) (p0 p1 p2 p3 : Bool) (ch n s : ℕ) (p : Bool) :
    (ResNet_init [b0, b1, b2, b3] nc bn v1 v2 bt [c0, c1, c2, c3]
        [p0, p1, p2, p3]
      = Except.ok
          { resnet_v1 := v1
            resnet_v2 := v2
            use_bn := bn
            initial_conv :=
              if v1 then ⟨64, 7, 2, false, "SAME", "initial_conv"⟩
              else ⟨64, 3, 1, false, "SAME", "initial_conv"⟩
            initial_batchnorm :=
              if !v2 && bn then some "initial_batchnorm" else none
            block_groups :=
              [BlockGroup_init c0 b0 1 v2 bt p0 bn,
               BlockGroup_init c1 b1 2 v2 bt p1 bn,
               BlockGroup_init c2 b2 2 v2 bt p2 bn,
               BlockGroup_init c3 b3 2 v2 bt p3 bn]
            logits := ⟨nc, "logits"⟩ })
    ∧ ((BlockGroup_init ch n s v2 bt p bn).blocks.length = n)
    ∧ (∀ j : ℕ, (BlockGroup_init ch n s v2 bt p bn).blocks[j]?
        = if j < n then
            some (BlockV1_init ch (if j = 0 then s else 1) p bt bn)
          else none) := by
  refine ⟨rfl, by simp [BlockGroup_init], ?_⟩
  intro j
  by_cases hj : j < n
  · simp [BlockGroup_init, List.getElem?_map, List.getElem?_range, hj]
  · simp only [BlockGroup_init]
    rw [List.getElem?_eq_none (by simpa using Nat.le_of_not_lt hj)]
    simp [hj]

/-- Witness for C7 at concrete tables: a `(2,2,2,2)`-deep network with
channels `(4,8,16,32)`, and the stride pattern inside a group of three
blocks at group stride 2. -/
theorem resnet_group_tables_witness :
    (BlockGroup_init 4 3 2 false false true true).blocks[0]?
        = some (BlockV1_init 4 2 true false true)
    ∧ (BlockGroup_init 4 3 2 false false true true).blocks[1]?
        = some (BlockV1_init 4 1 true false true)
    ∧ (BlockGroup_init 4 3 2 false false true true).blocks[3]? = none := by
  have h := resnet_group_tables 2 2 2 2 4 8 16 32 10 true false false
    false true true true true 4 3 2 true
  exact ⟨h.2.2 0, h.2.2 1, h.2.2 3⟩

/-- Claim C8: `ResNet.__init__` raises `ValueError` exactly when the
length of `blocks_per_group` or of `channels_per_group` is not 4; with
both lengths 4 the two checks never raise. -/
theorem resnet_init_length_check (bpg cpg : List ℕ) (nc : ℕ)
    (bn v1 v2 bt : Bool) (up : List Bool) :
    (∃ e, ResNet_init bpg nc bn v1 v2 bt cpg up = Except.error e)
      ↔ (bpg.length ≠ 4 ∨ cpg.length ≠ 4) := by
  rw [ResNet_init_eq]
  by_cases h₁ : bpg.length = 4 <;> by_cases h₂ : cpg.length = 4 <;>
    simp [h₁, h₂]

end NTKFSReg
